import Mathlib

/-!
# Verification of the ArcGIS sample-notebook client orchestration

This development gives a shallow embedding, in Lean 4, of the client-side
code of two Jupyter notebooks:

* `talks/uc2017/.../constructing_drive_time_based_service_areas.ipynb`
  (the *service-area notebook*), and
* `samples/04_gis_analysts_data_scientists/identifying-suitable-sites-for-als-clinics-using-location-allocation-analysis.ipynb`
  (the *location-allocation notebook*).

All solving happens on a remote service; the notebooks build request
payloads, issue solves, and reshape/draw the responses.  The embedding
models exactly that client code:

* Python `float` parsing of the literal decimal coordinate strings is
  modelled exactly over `ℚ` (the literals are short decimal numerals, so
  no IEEE rounding behaviour is observable at the level of the claims);
* Python dictionaries and pandas columns become association lists;
* fallible operations (list indexing, dictionary lookup, `float` on
  malformed text, `DataFrame.drop` on a missing column) return `Option`
  or are tracked by an explicit error flag, modelling the uncaught
  Python exception;
* the notebook's cell-by-cell control flow is embedded as an explicit
  trace of steps, one entry per relevant statement, in source order.
-/

/-! ## Python `float` on decimal literals -/

/-- Numeric value of a decimal digit character. -/
def digitVal (c : Char) : Option Nat :=
  if c.isDigit then some (c.toNat - Char.toNat '0') else none

/-- Value of a string of decimal digits (empty string gives 0, as in the
integer/fraction parts of a Python float literal such as `"139."`). -/
def parseNatDigits (cs : List Char) : Option Nat :=
  cs.foldl
    (fun acc c => do
      let a ← acc
      let d ← digitVal c
      return a * 10 + d)
    (some 0)

/-- Python `s.split(sep)` for a one-character separator, over the
character list: keeps empty fields, and `split` of the empty string is
`[''']`-like, i.e. one empty field. -/
def splitOnChar (sep : Char) : List Char → List (List Char)
  | [] => [[]]
  | c :: rest =>
      let r := splitOnChar sep rest
      if c == sep then [] :: r
      else
        match r with
        | [] => [[c]]
        | g :: gs => (c :: g) :: gs

/-- Integer stage of decimal parsing: the signed mantissa (all digits run
together) and the number of fraction digits, so that the parsed value is
`mantissa / 10 ^ fracDigits`.  Pure `Int`/`Nat` computation, so concrete
runs reduce in the kernel. -/
def parseDecimal (s : String) : Option (Int × Nat) :=
  let (sgn, body) :=
    match s.data with
    | '-' :: rest => ((-1 : Int), rest)
    | '+' :: rest => ((1 : Int), rest)
    | cs => ((1 : Int), cs)
  match splitOnChar '.' body with
  | [ip] =>
      if ip.isEmpty then none
      else (parseNatDigits ip).map (fun n => (sgn * (n : Int), 0))
  | [ip, fp] =>
      if ip.isEmpty && fp.isEmpty then none
      else do
        let ipn ← parseNatDigits ip
        let fpn ← parseNatDigits fp
        return (sgn * ((ipn : Int) * (10 : Int) ^ fp.length + (fpn : Int)), fp.length)
  | _ => none

/-- Model of Python `float(s)` on plain decimal numerals, exact over `ℚ`.
Returns `none` (an uncaught `ValueError` in Python) on malformed input. -/
def pyFloat (s : String) : Option ℚ :=
  (parseDecimal s).map (fun p => (p.1 : ℚ) / (10 : ℚ) ^ p.2)

/-! ## Service-area notebook: fire-station input feature collection

Source cell:
```python
fire_station_1_coord = '139.546910,35.695729'
fire_station_2_coord = '139.673726,35.697988'
f1 = Feature(geometry={'x':float(fire_station_1_coord.split(',')[0]),
                       'y':float(fire_station_1_coord.split(',')[1])})
f2 = Feature(geometry={'x':float(fire_station_2_coord.split(',')[0]),
                       'y':float(fire_station_2_coord.split(',')[1])})
fire_station_fset = FeatureSet([f1,f2], geometry_type='esriGeometryPoint',
                               spatial_reference={'latestWkid': 4326})
```
-/

/-- A point feature: `Feature(geometry={'x': …, 'y': …})`. -/
structure PointFeature where
  x : ℚ
  y : ℚ
  deriving DecidableEq

/-- A `FeatureSet` of point features with declared geometry type and
spatial reference (the spatial reference dictionary as an association
list). -/
structure PointFeatureSet where
  features : List PointFeature
  geometry_type : String
  spatial_reference : List (String × Int)
  deriving DecidableEq

/-- The literal coordinate string of the first Tokyo fire station. -/
def fire_station_1_coord : String := "139.546910,35.695729"

/-- The literal coordinate string of the second Tokyo fire station. -/
def fire_station_2_coord : String := "139.673726,35.697988"

/-- Python `coord.split(',')`, as a list of strings. -/
def pySplitComma (coord : String) : List String :=
  (splitOnChar ',' coord.data).map (fun cs => String.mk cs)

/-- `Feature(geometry={'x': float(coord.split(',')[0]), 'y': float(coord.split(',')[1])})`:
`none` models the uncaught `IndexError`/`ValueError` on malformed text. -/
def mkFireFeature (coord : String) : Option PointFeature := do
  let s0 ← (pySplitComma coord)[0]?
  let s1 ← (pySplitComma coord)[1]?
  let x ← pyFloat s0
  let y ← pyFloat s1
  return ⟨x, y⟩

/-- `f1` from the notebook. -/
def sa_f1 : Option PointFeature := mkFireFeature fire_station_1_coord

/-- `f2` from the notebook. -/
def sa_f2 : Option PointFeature := mkFireFeature fire_station_2_coord

/-- `fire_station_fset = FeatureSet([f1,f2], geometry_type='esriGeometryPoint',
spatial_reference={'latestWkid': 4326})`. -/
def fire_station_fset : Option PointFeatureSet := do
  let f1 ← sa_f1
  let f2 ← sa_f2
  return ⟨[f1, f2], "esriGeometryPoint", [("latestWkid", 4326)]⟩

/-! ## Service-area notebook: travel-mode selection and solve request

Source cell:
```python
travel_modes = sa_layer.retrieve_travel_modes()
truck_mode = [t for t in travel_modes['supportedTravelModes'] if t['name'] == 'Trucking Time'][0]
result = sa_layer.solve_service_area(fire_station_fset, default_breaks=[5,10,15],
                                     travel_direction='esriNATravelDirectionFromFacility',
                                     travel_mode=truck_mode)
```
-/

/-- A travel mode from the service's `retrieve_travel_modes` response.
Only the `name` key is inspected by the notebook; `payload` stands for
all the remaining keys of the mode dictionary. -/
structure TravelMode where
  name : String
  payload : List (String × String)
  deriving DecidableEq

/-- `[t for t in supportedTravelModes if t['name'] == 'Trucking Time'][0]`:
the Python list comprehension filters, then `[0]` indexes; `none` models
the uncaught `IndexError` when the comprehension is empty. -/
def truck_mode (supportedTravelModes : List TravelMode) : Option TravelMode :=
  (supportedTravelModes.filter (fun t => t.name == "Trucking Time"))[0]?

/-- The keyword arguments of the single `solve_service_area` call. -/
structure ServiceAreaRequest where
  facilities : PointFeatureSet
  default_breaks : List ℚ
  travel_direction : String
  travel_mode : TravelMode
  deriving DecidableEq

/-- The request issued by
`sa_layer.solve_service_area(fire_station_fset, default_breaks=[5,10,15],
travel_direction='esriNATravelDirectionFromFacility', travel_mode=truck_mode)`,
as a function of the travel-modes response; `none` models the uncaught
error when mode selection or facility construction failed. -/
def sa_solve_request (supportedTravelModes : List TravelMode) :
    Option ServiceAreaRequest := do
  let tm ← truck_mode supportedTravelModes
  let fset ← fire_station_fset
  return ⟨fset, [5, 10, 15], "esriNATravelDirectionFromFacility", tm⟩

/-! ## Service-area notebook: reshaping the solve response

Source cells:
```python
poly_feat_list = []
for polygon_dict in result['saPolygons']['features']:
    f1 = Feature(polygon_dict['geometry'], polygon_dict['attributes'])
    poly_feat_list.append(f1)

service_area_fset = FeatureSet(poly_feat_list,
                               geometry_type=result['saPolygons']['geometryType'],
                               spatial_reference=result['saPolygons']['spatialReference'])
```
-/

/-- An esri polygon geometry: a list of rings of coordinate pairs. -/
abbrev PolyGeometry := List (List (ℚ × ℚ))

/-- An attribute (or pandas cell) value: a string, a number, or a point
geometry (the `SHAPE` column of a spatial dataframe). -/
inductive AttrValue
  | str : String → AttrValue
  | num : ℚ → AttrValue
  | pt : ℚ → ℚ → AttrValue
  deriving DecidableEq

/-- One entry of the response's `saPolygons.features` array: a dictionary
with `geometry` and `attributes` keys. -/
structure PolygonDict where
  geometry : PolyGeometry
  attributes : List (String × AttrValue)
  deriving DecidableEq

/-- `Feature(geometry, attributes)` built from a response polygon. -/
structure PolyFeature where
  geometry : PolyGeometry
  attributes : List (String × AttrValue)
  deriving DecidableEq

/-- The `saPolygons` member of the solve response. -/
structure SAPolygons where
  features : List PolygonDict
  geometryType : String
  spatialReference : List (String × Int)
  deriving DecidableEq

/-- The solve response dictionary (the notebook only reads its
`saPolygons` key). -/
structure SAResponse where
  saPolygons : SAPolygons
  deriving DecidableEq

/-- A `FeatureSet` of polygon features. -/
structure PolyFeatureSet where
  features : List PolyFeature
  geometry_type : String
  spatial_reference : List (String × Int)
  deriving DecidableEq

/-- The `poly_feat_list` accumulation loop, as a left fold appending one
`Feature` per response entry. -/
def poly_feat_list (result : SAResponse) : List PolyFeature :=
  result.saPolygons.features.foldl
    (fun acc polygon_dict => acc ++ [⟨polygon_dict.geometry, polygon_dict.attributes⟩]) []

/-- `service_area_fset = FeatureSet(poly_feat_list, geometry_type=…, spatial_reference=…)`. -/
def service_area_fset (result : SAResponse) : PolyFeatureSet :=
  ⟨poly_feat_list result,
   result.saPolygons.geometryType,
   result.saPolygons.spatialReference⟩

/-! ## Service-area notebook: the rendering loop

Source cells:
```python
colors = {5: [0, 128, 0, 90],
          10: [255, 255, 0, 90],
          15: [255, 0, 0, 90]}

fill_symbol = {"type": "esriSFS","style": "esriSFSSolid",
               "color": [115,76,0,255]}

for service_area in service_area_fset.features:
    fill_symbol['color'] = colors[service_area.attributes['ToBreak']]
    popup={"title": "Service area",
           "content": "{} minutes".format(service_area.attributes['ToBreak'])}
    map1.draw(service_area.geometry, symbol=fill_symbol, popup=popup)
```
-/

/-- The `colors` dictionary of the notebook (key: a drive-time break in
minutes, value: an RGBA fill color).  Python's `dict` lookup equates the
integer key `5` with the float `5.0`, which the single numeric type `ℚ`
models directly. -/
def colors : List (ℚ × List ℕ) :=
  [(5, [0, 128, 0, 90]), (10, [255, 255, 0, 90]), (15, [255, 0, 0, 90])]

/-- Python dictionary lookup `colors[k]`; `none` models the uncaught
`KeyError`. -/
def colorsLookup (k : ℚ) : Option (List ℕ) :=
  (colors.find? (fun e => e.1 == k)).map (fun e => e.2)

/-- Attribute dictionary lookup `attributes[k]`; `none` models the
uncaught `KeyError`. -/
def attrLookup (attrs : List (String × AttrValue)) (k : String) : Option AttrValue :=
  (attrs.find? (fun e => e.1 == k)).map (fun e => e.2)

/-- `colors[v]` where `v` is the raw attribute value: only a numeric
value can hit one of the numeric keys; any string or geometry value is
an uncaught `KeyError`. -/
def colorsLookupAttr : AttrValue → Option (List ℕ)
  | AttrValue.num q => colorsLookup q
  | _ => none

/-- `"{}".format(v)`: the embedding's printer for attribute values,
standing for Python's string formatting. -/
def pyFormat : AttrValue → String
  | AttrValue.str s => s
  | AttrValue.num q => toString q
  | AttrValue.pt x y => "(" ++ toString x ++ ", " ++ toString y ++ ")"

/-- One `map1.draw(geometry, symbol=fill_symbol, popup=popup)` call of the
rendering loop. -/
structure DrawCall where
  geometry : PolyGeometry
  color : List ℕ
  popup_title : String
  popup_content : String
  deriving DecidableEq

/-- The rendering loop over `service_area_fset.features`: returns the
draw calls performed, in order, together with an error flag that is
`true` exactly when a `KeyError` was raised (either `ToBreak` missing
from the attributes, or its value missing from `colors`); the loop stops
at the first error, so calls after it are not performed. -/
def drawLoop : List PolyFeature → List DrawCall × Bool
  | [] => ([], false)
  | f :: rest =>
      match attrLookup f.attributes "ToBreak" with
      | none => ([], true)
      | some v =>
          match colorsLookupAttr v with
          | none => ([], true)
          | some c =>
              let call : DrawCall :=
                ⟨f.geometry, c, "Service area", pyFormat v ++ " minutes"⟩
              let r := drawLoop rest
              (call :: r.1, r.2)

/-! ## Location-allocation notebook: the two solve requests

Source cells:
```python
result1 = network.analysis.solve_location_allocation(problem_type='Maximize Coverage',
    travel_direction='Demand to Facility',
    number_of_facilities_to_find='1',
    demand_points=patient_locations_weighted,
    facilities=city_candidates_fset,
    measurement_units='Minutes',
    default_measurement_cutoff=90
)

result2 = network.analysis.solve_location_allocation(
    problem_type='Target Market Share',
    target_market_share=70,
    facilities=city_candidates_fset,
    demand_points=patient_locations_weighted,
    travel_direction='Demand to Facility',
    measurement_units='Minutes',
    default_measurement_cutoff=90
)
```
-/

/-- The keyword arguments of a `solve_location_allocation` call.  `α` is
the type of the feature collections passed as demand points and
facilities; keyword arguments absent from a call are `none`. -/
structure LocationAllocationRequest (α : Type) where
  problem_type : String
  travel_direction : String
  number_of_facilities_to_find : Option String
  target_market_share : Option ℚ
  demand_points : α
  facilities : α
  measurement_units : String
  default_measurement_cutoff : ℚ
  deriving DecidableEq

/-- The first solve request (`result1`), as a function of the two input
feature collections in scope at the call. -/
def la_request1 {α : Type} (patient_locations_weighted city_candidates_fset : α) :
    LocationAllocationRequest α :=
  { problem_type := "Maximize Coverage"
    travel_direction := "Demand to Facility"
    number_of_facilities_to_find := some "1"
    target_market_share := none
    demand_points := patient_locations_weighted
    facilities := city_candidates_fset
    measurement_units := "Minutes"
    default_measurement_cutoff := 90 }

/-- The second solve request (`result2`), as a function of the two input
feature collections in scope at the call. -/
def la_request2 {α : Type} (patient_locations_weighted city_candidates_fset : α) :
    LocationAllocationRequest α :=
  { problem_type := "Target Market Share"
    travel_direction := "Demand to Facility"
    number_of_facilities_to_find := none
    target_market_share := some 70
    demand_points := patient_locations_weighted
    facilities := city_candidates_fset
    measurement_units := "Minutes"
    default_measurement_cutoff := 90 }

/-! ## Location-allocation notebook: `visualize_locate_allocate_results`

Source (inside the function):
```python
demand_df = result.output_demand_points.sdf
lines_df = result.output_allocation_lines.sdf

demand_allocated_df = demand_df[demand_df['DemandOID'].isin(lines_df['DemandOID'])]
demand_not_allocated_df = demand_df[~demand_df['DemandOID'].isin(lines_df['DemandOID'])]

facilities_df = result.output_facilities.sdf[['Name', 'FacilityType',
                                              'Weight','DemandCount', 'DemandWeight', 'SHAPE']]
facilities_chosen_df = facilities_df[facilities_df['FacilityType'] == 3]
```
-/

/-- A row of the output demand-points table: its `DemandOID` plus all
remaining columns as an opaque payload. -/
structure DemandRow where
  DemandOID : Int
  payload : List (String × AttrValue)
  deriving DecidableEq

/-- A row of the output allocation-lines table. -/
structure AllocationLine where
  DemandOID : Int
  payload : List (String × AttrValue)
  deriving DecidableEq

/-- A row of the output facilities table; the named fields are the six
columns the function projects out, `extra` holds all other columns. -/
structure FacilityRow where
  Name : String
  FacilityType : Int
  Weight : ℚ
  DemandCount : ℚ
  DemandWeight : ℚ
  SHAPE : PointFeature
  extra : List (String × AttrValue)
  deriving DecidableEq

/-- A row of `facilities_df` after the six-column projection. -/
structure FacilityDisplayRow where
  Name : String
  FacilityType : Int
  Weight : ℚ
  DemandCount : ℚ
  DemandWeight : ℚ
  SHAPE : PointFeature
  deriving DecidableEq

/-- The named tuple returned by `solve_location_allocation`. -/
structure LocateAllocateResult where
  solve_succeeded : Bool
  output_facilities : List FacilityRow
  output_demand_points : List DemandRow
  output_allocation_lines : List AllocationLine
  deriving DecidableEq

/-- `demand_df['DemandOID'].isin(lines_df['DemandOID'])` for one row. -/
def demandOIDIsIn (r : LocateAllocateResult) (d : DemandRow) : Bool :=
  (r.output_allocation_lines.map (fun l => l.DemandOID)).contains d.DemandOID

/-- `demand_allocated_df`: rows of `demand_df` whose `DemandOID` occurs
among the allocation lines' `DemandOID` values. -/
def demand_allocated_df (r : LocateAllocateResult) : List DemandRow :=
  r.output_demand_points.filter (fun d => demandOIDIsIn r d)

/-- `demand_not_allocated_df`: rows of `demand_df` whose `DemandOID` does
not occur among the allocation lines' `DemandOID` values (`~isin`). -/
def demand_not_allocated_df (r : LocateAllocateResult) : List DemandRow :=
  r.output_demand_points.filter (fun d => !(demandOIDIsIn r d))

/-- The `[['Name','FacilityType','Weight','DemandCount','DemandWeight','SHAPE']]`
column projection. -/
def facilityProj (f : FacilityRow) : FacilityDisplayRow :=
  ⟨f.Name, f.FacilityType, f.Weight, f.DemandCount, f.DemandWeight, f.SHAPE⟩

/-- `facilities_df`: the output facilities under the six-column projection. -/
def facilities_df (r : LocateAllocateResult) : List FacilityDisplayRow :=
  r.output_facilities.map facilityProj

/-- `facilities_chosen_df = facilities_df[facilities_df['FacilityType'] == 3]`. -/
def facilities_chosen_df (r : LocateAllocateResult) : List FacilityDisplayRow :=
  (facilities_df r).filter (fun f => f.FacilityType == 3)

/-! ## Location-allocation notebook: weighting the demand points

Source cell:
```python
patient_locations_sdf['weight'] = patient_locations_sdf['num_patients']
patient_locations_sdf2 = patient_locations_sdf.drop('num_patients', axis=1)
patient_locations_weighted = patient_locations_sdf2.spatial.to_featureset()
```
-/

/-- A spatial dataframe, column-oriented: each entry is a column name
with the column's cells, one per row, the geometry being the `SHAPE`
column. -/
abbrev DataFrame := List (String × List AttrValue)

/-- `df[name]` read: the column's cells; `none` models the uncaught
`KeyError`. -/
def getCol (df : DataFrame) (name : String) : Option (List AttrValue) :=
  (df.find? (fun c => c.1 == name)).map (fun c => c.2)

/-- `df[name] = vals`: overwrite the column if present, else append it as
the last column (pandas column assignment). -/
def setCol (df : DataFrame) (name : String) (vals : List AttrValue) : DataFrame :=
  if df.any (fun c => c.1 == name) then
    df.map (fun c => if c.1 == name then (name, vals) else c)
  else df ++ [(name, vals)]

/-- `df.drop(name, axis=1)`: remove the column; `none` models the
uncaught `KeyError` when it is absent. -/
def dropCol (df : DataFrame) (name : String) : Option DataFrame :=
  if df.any (fun c => c.1 == name) then
    some (df.filter (fun c => c.1 != name))
  else none

/-- The feature set produced by `to_featureset`, carrying the dataframe's
columns (attribute columns plus the `SHAPE` geometry column) unchanged. -/
structure TableFeatureSet where
  table : DataFrame
  deriving DecidableEq

/-- The weighting cell: copy `num_patients` into a new `weight` column,
drop `num_patients`, and convert back to a feature set; `none` models an
uncaught `KeyError` on a table without a `num_patients` column. -/
def patient_locations_weighted (patient_locations_sdf : DataFrame) :
    Option TableFeatureSet := do
  let np ← getCol patient_locations_sdf "num_patients"
  let sdf := setCol patient_locations_sdf "weight" np
  let sdf2 ← dropCol sdf "num_patients"
  return ⟨sdf2⟩

/-! ## The notebooks as traces of steps

Each notebook is a linear sequence of cells; the traces below list one
entry per relevant statement, in source order.  Constructors exist for
control-flow shapes the claims deny (`tryExcept`, `retryOrFallback`,
`branchOnResult`) so that their absence is a provable property of the
trace. -/

/-- One step of a notebook, in cell order. -/
inductive NotebookStep
  /-- Opening the connection to the GIS (`GIS(url, user, password)`). -/
  | connect
  /-- A remote call other than a solve (content search, layer query,
  service-metadata lookup, `retrieve_travel_modes`). -/
  | remoteQuery (desc : String)
  /-- Construction of an input feature collection, bound to `name`. -/
  | buildInput (name : String)
  /-- A remote solve request (`solve_service_area` /
  `solve_location_allocation`), numbered per notebook in call order,
  with the names of the input feature collections it is passed. -/
  | remoteSolve (id : Nat) (inputs : List String)
  /-- Reading attribute `attr` of solve result `id` as a status signal
  (the `print(… .solve_succeeded)` statements). -/
  | inspectStatus (id : Nat) (attr : String)
  /-- Reading data (not status) out of solve result `id`. -/
  | resultDataRead (id : Nat) (what : String)
  /-- Reshaping the response of solve `id` into feature sets or
  dataframes. -/
  | reshapeResult (id : Nat)
  /-- Drawing input data (not solve output) on a map widget. -/
  | drawInput (name : String)
  /-- Drawing the reshaped output of solve `id` on a map widget. -/
  | drawResult (id : Nat)
  /-- Any other statement (imports, map construction, symbology
  dictionaries, function definition, dataframe display). -/
  | other (desc : String)
  /-- A `try`/`except` exception handler.  Never occurs. -/
  | tryExcept
  /-- A retry loop or fallback path around a remote call.  Never occurs. -/
  | retryOrFallback
  /-- A conditional branching on an attribute of a solve result.  Never
  occurs. -/
  | branchOnResult (id : Nat) (attr : String)
  deriving DecidableEq

open NotebookStep in
/-- The service-area notebook (`constructing_drive_time_based_service_areas.ipynb`)
as a trace, one entry per statement of its code cells, in order. -/
def serviceAreaTrace : List NotebookStep :=
  [ other "imports (datetime, HTML, pandas, arcgis.gis)",
    connect,                                   -- my_gis = GIS('https://www.arcgis.com', …)
    other "import arcgis.network as network",
    remoteQuery "my_gis.properties.helperServices.serviceArea.url",
    other "sa_layer = network.ServiceAreaLayer(service_area_url, gis=my_gis)",
    buildInput "fire_station_fset",            -- f1, f2, FeatureSet([f1,f2], …)
    other "map1 = my_gis.map('Tokyo', zoomlevel=12)",
    other "fire_truck_symbol = {…}",
    drawInput "fire_station_fset",             -- map1.draw(fire_station_fset, …)
    remoteQuery "sa_layer.retrieve_travel_modes()",
    other "truck_mode = [t for t in … if t['name'] == 'Trucking Time'][0]",
    remoteSolve 1 ["fire_station_fset"],       -- sa_layer.solve_service_area(…)
    resultDataRead 1 "keys",                   -- result.keys()
    resultDataRead 1 "saPolygons keys",        -- result['saPolygons'].keys()
    reshapeResult 1,                           -- poly_feat_list loop
    reshapeResult 1,                           -- service_area_fset = FeatureSet(…)
    resultDataRead 1 "service_area_fset.df",
    other "colors = {5: …, 10: …, 15: …}; fill_symbol = {…}",
    drawResult 1 ]                             -- rendering loop

open NotebookStep in
/-- The location-allocation notebook
(`identifying-suitable-sites-for-als-clinics-using-location-allocation-analysis.ipynb`)
as a trace, one entry per statement of its code cells, in order. -/
def locationAllocationTrace : List NotebookStep :=
  [ other "imports (arcgis, IPython.display)",
    connect,                                   -- gis = GIS('https://python.playground.esri.com/portal', …)
    remoteQuery "gis.content.search('tags: ALS', 'Feature Layer')",
    other "display search results and titles",
    other "map1 = gis.map('State of California, USA')",
    other "assign als_clinics / patient_locations / city_candidates / drive_times",
    drawInput "drive_times, als_clinics, patient_locations, city_candidates",
    buildInput "city_candidates_fset",         -- city_candidates.layers[0].query()
    buildInput "patient_locations_fset",       -- patient_locations.layers[0].query()
    other "patient_locations_sdf.head()",
    buildInput "patient_locations_weighted",   -- weight column, drop, to_featureset
    other "def visualize_locate_allocate_results(…)",
    remoteSolve 1 ["patient_locations_weighted", "city_candidates_fset"],
    inspectStatus 1 "solve_succeeded",         -- print('Analysis succeeded? {}'.format(result1.solve_succeeded))
    resultDataRead 1 "output_facilities.sdf",
    other "map2 = gis.map('Visalia, CA')",
    reshapeResult 1,                           -- visualize…: dataframe extraction
    drawResult 1,                              -- visualize…: m.draw calls
    remoteSolve 2 ["patient_locations_weighted", "city_candidates_fset"],
    inspectStatus 2 "solve_succeeded",         -- print('Solve succeeded? {}'.format(result2.solve_succeeded))
    resultDataRead 2 "output_facilities.sdf",
    other "map3 = gis.map('Visalia, CA', zoomlevel=7)",
    reshapeResult 2,                           -- visualize…: dataframe extraction
    drawResult 2 ]                             -- visualize…: m.draw calls

/-- Is a step a remote call (solve or other remote invocation)? -/
def NotebookStep.isRemoteCall : NotebookStep → Bool
  | NotebookStep.remoteQuery _ => true
  | NotebookStep.remoteSolve _ _ => true
  | _ => false

/-- Is a step a remote solve? -/
def NotebookStep.isSolve : NotebookStep → Bool
  | NotebookStep.remoteSolve _ _ => true
  | _ => false

/-- Is a step a status inspection? -/
def NotebookStep.isStatusRead : NotebookStep → Bool
  | NotebookStep.inspectStatus _ _ => true
  | _ => false

/-- Is a step an exception handler, a retry/fallback, or a branch on a
solve result? -/
def NotebookStep.isRecoveryConstruct : NotebookStep → Bool
  | NotebookStep.tryExcept => true
  | NotebookStep.retryOrFallback => true
  | NotebookStep.branchOnResult _ _ => true
  | _ => false

/-! ## Helper lemmas -/

/-- Evaluation of the four coordinate parses. -/
lemma pyFloat_fs1x : pyFloat "139.546910" = some ((139546910 : ℚ) / 1000000) := by
  rw [pyFloat, show parseDecimal "139.546910" = some (139546910, 6) from by decide]
  norm_num

lemma pyFloat_fs1y : pyFloat "35.695729" = some ((35695729 : ℚ) / 1000000) := by
  rw [pyFloat, show parseDecimal "35.695729" = some (35695729, 6) from by decide]
  norm_num

lemma pyFloat_fs2x : pyFloat "139.673726" = some ((139673726 : ℚ) / 1000000) := by
  rw [pyFloat, show parseDecimal "139.673726" = some (139673726, 6) from by decide]
  norm_num

lemma pyFloat_fs2y : pyFloat "35.697988" = some ((35697988 : ℚ) / 1000000) := by
  rw [pyFloat, show parseDecimal "35.697988" = some (35697988, 6) from by decide]
  norm_num

/-- The first fire-station feature, evaluated. -/
lemma sa_f1_eval :
    sa_f1 = some ⟨(139546910 : ℚ) / 1000000, (35695729 : ℚ) / 1000000⟩ := by
  rw [sa_f1, mkFireFeature,
      show pySplitComma fire_station_1_coord = ["139.546910", "35.695729"] from by decide]
  simp [pyFloat_fs1x, pyFloat_fs1y]

/-- The second fire-station feature, evaluated. -/
lemma sa_f2_eval :
    sa_f2 = some ⟨(139673726 : ℚ) / 1000000, (35697988 : ℚ) / 1000000⟩ := by
  rw [sa_f2, mkFireFeature,
      show pySplitComma fire_station_2_coord = ["139.673726", "35.697988"] from by decide]
  simp [pyFloat_fs2x, pyFloat_fs2y]

/-- The fire-station feature set, evaluated. -/
lemma fire_station_fset_eval :
    fire_station_fset =
      some ⟨[⟨(139546910 : ℚ) / 1000000, (35695729 : ℚ) / 1000000⟩,
             ⟨(139673726 : ℚ) / 1000000, (35697988 : ℚ) / 1000000⟩],
            "esriGeometryPoint", [("latestWkid", 4326)]⟩ := by
  rw [fire_station_fset, sa_f1_eval, sa_f2_eval]; rfl

/-! ## Claims -/

/-- C5: the fire-station `FeatureSet` contains exactly two point features
whose `x`/`y` are the float parses of the text before/after the comma of
the two literal coordinate strings, with geometry type
`esriGeometryPoint` and spatial reference `{latestWkid: 4326}`. -/
theorem fire_station_fset_from_literals :
    ∃ f1 f2 : PointFeature,
      sa_f1 = some f1 ∧ sa_f2 = some f2
      ∧ fire_station_fset = some ⟨[f1, f2], "esriGeometryPoint", [("latestWkid", 4326)]⟩
      ∧ pySplitComma fire_station_1_coord = ["139.546910", "35.695729"]
      ∧ pySplitComma fire_station_2_coord = ["139.673726", "35.697988"]
      ∧ pyFloat "139.546910" = some f1.x ∧ pyFloat "35.695729" = some f1.y
      ∧ pyFloat "139.673726" = some f2.x ∧ pyFloat "35.697988" = some f2.y := by
  refine ⟨⟨(139546910 : ℚ) / 1000000, (35695729 : ℚ) / 1000000⟩,
          ⟨(139673726 : ℚ) / 1000000, (35697988 : ℚ) / 1000000⟩,
          sa_f1_eval, sa_f2_eval, ?_, by decide, by decide,
          pyFloat_fs1x, pyFloat_fs1y, pyFloat_fs2x, pyFloat_fs2y⟩
  rw [fire_station_fset, sa_f1_eval, sa_f2_eval]; rfl

/-- C2: the two location-allocation solves are issued with problem type
exactly `Maximize Coverage` (with `number_of_facilities_to_find = '1'`)
and exactly `Target Market Share` (with a target-market-share scalar),
both with travel direction `Demand to Facility`, measurement units
`Minutes`, and default measurement cutoff 90. -/
theorem la_request_params : ∀ (α : Type) (d f : α),
    (la_request1 d f).problem_type = "Maximize Coverage"
    ∧ (la_request1 d f).number_of_facilities_to_find = some "1"
    ∧ (la_request2 d f).problem_type = "Target Market Share"
    ∧ (la_request2 d f).target_market_share = some 70
    ∧ (la_request1 d f).travel_direction = "Demand to Facility"
    ∧ (la_request2 d f).travel_direction = "Demand to Facility"
    ∧ (la_request1 d f).measurement_units = "Minutes"
    ∧ (la_request2 d f).measurement_units = "Minutes"
    ∧ (la_request1 d f).default_measurement_cutoff = 90
    ∧ (la_request2 d f).default_measurement_cutoff = 90 := by
  intro α d f
  exact ⟨rfl, rfl, rfl, rfl, rfl, rfl, rfl, rfl, rfl, rfl⟩

/-- C3: the service-area solve request carries break values exactly
`[5, 10, 15]` minutes, travel direction
`esriNATravelDirectionFromFacility`, the selected trucking-time travel
mode, and the two-facility fire-station feature set; and whenever the
travel-modes response contains a `Trucking Time` mode the request is in
fact issued. -/
theorem sa_request_params (modes : List TravelMode) :
    (∀ req : ServiceAreaRequest, sa_solve_request modes = some req →
      req.default_breaks = [5, 10, 15]
      ∧ req.travel_direction = "esriNATravelDirectionFromFacility"
      ∧ truck_mode modes = some req.travel_mode
      ∧ fire_station_fset = some req.facilities
      ∧ req.facilities.features.length = 2)
    ∧ ((∃ t ∈ modes, t.name = "Trucking Time") →
        ∃ req : ServiceAreaRequest, sa_solve_request modes = some req) := by
  constructor
  · intro req hreq
    rw [sa_solve_request] at hreq
    cases htm : truck_mode modes with
    | none => rw [htm] at hreq; simp at hreq
    | some tm =>
        rw [htm, fire_station_fset_eval] at hreq
        simp only [Option.bind_some, Option.some_bind, Option.pure_def,
          Option.some.injEq, Option.bind_eq_bind] at hreq
        subst hreq
        refine ⟨rfl, rfl, rfl, ?_, rfl⟩
        rw [fire_station_fset_eval]
  · rintro ⟨t, ht, hname⟩
    rw [sa_solve_request]
    cases htm : truck_mode modes with
    | none =>
        exfalso
        have : t ∈ modes.filter (fun u => u.name == "Trucking Time") := by
          rw [List.mem_filter]
          exact ⟨ht, by simp [hname]⟩
        rw [truck_mode] at htm
        rcases List.ne_nil_of_mem this with _
        cases hfil : modes.filter (fun u => u.name == "Trucking Time") with
        | nil => rw [hfil] at this; exact absurd this (List.not_mem_nil t)
        | cons a l => rw [hfil] at htm; simp at htm
    | some tm =>
        rw [fire_station_fset_eval]
        exact ⟨_, rfl⟩

/-- A travel-modes response used to instantiate `sa_request_params`. -/
def sa_modes_example : List TravelMode :=
  [⟨"Driving Time", []⟩, ⟨"Trucking Time", [("impedance", "TruckTravelTime")]⟩]

/-- Witness for C3: the theorem applied to a concrete travel-modes
response containing a `Trucking Time` mode. -/
theorem sa_request_params_witness :
    ∃ req : ServiceAreaRequest,
      sa_solve_request sa_modes_example = some req
      ∧ req.default_breaks = [5, 10, 15]
      ∧ req.travel_direction = "esriNATravelDirectionFromFacility"
      ∧ truck_mode sa_modes_example = some req.travel_mode
      ∧ fire_station_fset = some req.facilities
      ∧ req.facilities.features.length = 2 := by
  obtain ⟨req, hreq⟩ :=
    (sa_request_params sa_modes_example).2
      ⟨⟨"Trucking Time", [("impedance", "TruckTravelTime")]⟩, by decide, rfl⟩
  exact ⟨req, hreq, (sa_request_params sa_modes_example).1 req hreq⟩

/-- Accumulating with `append` of singletons is `map`. -/
lemma foldl_append_singleton_eq_map {α β : Type} (f : α → β) :
    ∀ (l : List α) (acc : List β),
      l.foldl (fun a x => a ++ [f x]) acc = acc ++ l.map f := by
  intro l
  induction l with
  | nil => intro acc; simp
  | cons x xs ih => intro acc; simp [ih]

/-- The `poly_feat_list` loop is the elementwise `Feature` construction. -/
lemma poly_feat_list_eq_map (result : SAResponse) :
    poly_feat_list result =
      result.saPolygons.features.map (fun d => ⟨d.geometry, d.attributes⟩) := by
  rw [poly_feat_list, foldl_append_singleton_eq_map]
  simp

/-- C4: reshaping the service-area response is a pure passthrough — one
feature per entry of `result.saPolygons.features`, in order, with
geometry and attributes identical, and the feature set's geometry type
and spatial reference equal to the response's. -/
theorem service_area_fset_passthrough (result : SAResponse) :
    (service_area_fset result).features.length = result.saPolygons.features.length
    ∧ (∀ i : Fin result.saPolygons.features.length,
        ((service_area_fset result).features)[(i : ℕ)]? =
          some ⟨(result.saPolygons.features.get i).geometry,
                (result.saPolygons.features.get i).attributes⟩)
    ∧ (service_area_fset result).geometry_type = result.saPolygons.geometryType
    ∧ (service_area_fset result).spatial_reference = result.saPolygons.spatialReference := by
  refine ⟨?_, ?_, rfl, rfl⟩
  · show (poly_feat_list result).length = _
    rw [poly_feat_list_eq_map, List.length_map]
  · intro i
    show (poly_feat_list result)[(i : ℕ)]? = _
    rw [poly_feat_list_eq_map, List.getElem?_map,
        List.getElem?_eq_getElem i.isLt]
    simp

/-- C6: travel-mode selection picks the first mode named `Trucking Time`
in list order, and raises an uncaught index error (modelled as `none`)
when no such mode exists. -/
theorem truck_mode_selects_first (modes : List TravelMode) :
    ((∃ t ∈ modes, t.name = "Trucking Time") →
      ∃ (i : ℕ) (tm : TravelMode),
        modes[i]? = some tm
        ∧ tm.name = "Trucking Time"
        ∧ truck_mode modes = some tm
        ∧ ∀ j : ℕ, j < i → ∀ u : TravelMode, modes[j]? = some u →
            u.name ≠ "Trucking Time")
    ∧ ((∀ t ∈ modes, t.name ≠ "Trucking Time") → truck_mode modes = none) := by
  induction modes with
  | nil =>
      constructor
      · rintro ⟨t, ht, -⟩
        exact absurd ht (List.not_mem_nil t)
      · intro _
        rfl
  | cons m ms ih =>
      constructor
      · rintro ⟨t, ht, hname⟩
        by_cases hm : m.name = "Trucking Time"
        · refine ⟨0, m, by simp, hm, ?_, ?_⟩
          · rw [truck_mode, List.filter_cons_of_pos (by simp [hm])]
            simp
          · intro j hj
            exact absurd hj (Nat.not_lt_zero j)
        · have htail : ∃ u ∈ ms, u.name = "Trucking Time" := by
            rcases List.mem_cons.mp ht with h | h
            · exact absurd (h ▸ hname) hm
            · exact ⟨t, h, hname⟩
          obtain ⟨i, tm, hget, htm_name, htm, hfirst⟩ := ih.1 htail
          refine ⟨i + 1, tm, by simpa using hget, htm_name, ?_, ?_⟩
          · rw [truck_mode, List.filter_cons_of_neg (by simp [hm])]
            exact htm
          · intro j hj u hu
            cases j with
            | zero =>
                simp only [List.getElem?_cons_zero, Option.some.injEq] at hu
                exact hu ▸ hm
            | succ k =>
                rw [List.getElem?_cons_succ] at hu
                exact hfirst k (Nat.lt_of_succ_lt_succ hj) u hu
      · intro hnone
        rw [truck_mode, List.filter_cons_of_neg
              (by simp [hnone m (List.mem_cons_self m ms)])]
        exact ih.2 (fun t ht => hnone t (List.mem_cons_of_mem m ht))

/-- Witness for C6: the theorem applied to a concrete travel-modes list
with two `Trucking Time` modes (it selects the earlier one), and to a
concrete list with none (it fails with an index error). -/
theorem truck_mode_selects_first_witness :
    truck_mode [⟨"Driving Time", []⟩, ⟨"Trucking Time", [("id", "a")]⟩,
                ⟨"Trucking Time", [("id", "b")]⟩] =
      some ⟨"Trucking Time", [("id", "a")]⟩
    ∧ truck_mode [⟨"Driving Time", []⟩, ⟨"Walking Time", []⟩] = none := by
  constructor
  · obtain ⟨i, tm, hget, hname, htm, hfirst⟩ :=
      (truck_mode_selects_first
          [⟨"Driving Time", []⟩, ⟨"Trucking Time", [("id", "a")]⟩,
           ⟨"Trucking Time", [("id", "b")]⟩]).1
        ⟨⟨"Trucking Time", [("id", "a")]⟩, by decide, rfl⟩
    have hi : i = 1 := by
      have h0 : i ≠ 0 := by
        intro h
        subst h
        simp only [List.getElem?_cons_zero, Option.some.injEq] at hget
        rw [← hget] at hname
        exact absurd hname (by decide)
      have hlt : i < 3 := by
        by_contra hge
        push_neg at hge
        rw [List.getElem?_eq_none (by simpa using hge)] at hget
        exact Option.noConfusion hget
      have h2 : i ≠ 2 := by
        intro h
        subst h
        exact hfirst 1 (by omega) ⟨"Trucking Time", [("id", "a")]⟩ (by simp) rfl
      omega
    subst hi
    simp only [List.getElem?_cons_succ, List.getElem?_cons_zero,
      Option.some.injEq] at hget
    rw [htm, ← hget]
  · exact (truck_mode_selects_first
        [⟨"Driving Time", []⟩, ⟨"Walking Time", []⟩]).2 (by decide)

/-- A polygon whose `ToBreak` attribute is one of the three break values
the `colors` dictionary maps. -/
def validToBreak (f : PolyFeature) : Prop :=
  ∃ q : ℚ, attrLookup f.attributes "ToBreak" = some (AttrValue.num q)
    ∧ (q = 5 ∨ q = 10 ∨ q = 15)

/-- Stepping the rendering loop when both lookups succeed. -/
lemma drawLoop_cons_ok (f : PolyFeature) (rest : List PolyFeature)
    (v : AttrValue) (c : List ℕ)
    (hv : attrLookup f.attributes "ToBreak" = some v)
    (hc : colorsLookupAttr v = some c) :
    drawLoop (f :: rest) =
      (⟨f.geometry, c, "Service area", pyFormat v ++ " minutes"⟩ :: (drawLoop rest).1,
       (drawLoop rest).2) := by
  simp only [drawLoop, hv, hc]

/-- Stepping the rendering loop when the color lookup fails. -/
lemma drawLoop_cons_err (f : PolyFeature) (rest : List PolyFeature) (v : AttrValue)
    (hv : attrLookup f.attributes "ToBreak" = some v)
    (hc : colorsLookupAttr v = none) :
    drawLoop (f :: rest) = ([], true) := by
  simp only [drawLoop, hv, hc]

/-- A valid `ToBreak` value always hits the `colors` dictionary. -/
lemma validToBreak_colors {f : PolyFeature} (h : validToBreak f) :
    ∃ (q : ℚ) (c : List ℕ),
      attrLookup f.attributes "ToBreak" = some (AttrValue.num q)
      ∧ colorsLookupAttr (AttrValue.num q) = some c := by
  obtain ⟨q, hl, hq⟩ := h
  rcases hq with rfl | rfl | rfl
  · exact ⟨5, [0, 128, 0, 90], hl, by decide⟩
  · exact ⟨10, [255, 255, 0, 90], hl, by decide⟩
  · exact ⟨15, [255, 0, 0, 90], hl, by decide⟩

/-- After a prefix of polygons with mapped break values, a polygon whose
`ToBreak` value misses the `colors` dictionary stops the loop with the
error flag set, the draw calls performed being exactly the prefix's. -/
lemma drawLoop_err_after_valid_prefix (pre : List PolyFeature) (f : PolyFeature)
    (post : List PolyFeature)
    (hpre : ∀ g ∈ pre, validToBreak g)
    (hval : ∃ v : AttrValue, attrLookup f.attributes "ToBreak" = some v)
    (hmiss : ∀ v : AttrValue, attrLookup f.attributes "ToBreak" = some v →
      colorsLookupAttr v = none) :
    drawLoop (pre ++ f :: post) = ((drawLoop pre).1, true) := by
  induction pre with
  | nil =>
      obtain ⟨v, hv⟩ := hval
      simp only [List.nil_append]
      rw [drawLoop_cons_err f post v hv (hmiss v hv)]
      rfl
  | cons g pre' ih =>
      obtain ⟨q, c0, hl, hc⟩ :=
        validToBreak_colors (hpre g (List.mem_cons_self g pre'))
      have hrest := ih (fun u hu => hpre u (List.mem_cons_of_mem g hu))
      simp only [List.cons_append]
      rw [drawLoop_cons_ok g (pre' ++ f :: post) (AttrValue.num q) c0 hl hc,
          hrest, drawLoop_cons_ok g pre' (AttrValue.num q) c0 hl hc]

/-- C8: if every polygon's `ToBreak` is 5, 10 or 15 the rendering loop is
total, drawing each polygon with the fill color mapped from its
`ToBreak` and a popup of the formatted `ToBreak` followed by
` minutes`; a polygon whose `ToBreak` value misses the `colors`
dictionary raises an uncaught `KeyError` (error flag `true`) before that
polygon is drawn — only the valid prefix's draw calls are performed. -/
theorem drawLoop_total_on_breaks (features : List PolyFeature) :
    ((∀ f ∈ features, validToBreak f) →
      (drawLoop features).2 = false
      ∧ (drawLoop features).1.length = features.length
      ∧ ∀ (i : ℕ) (f : PolyFeature), features[i]? = some f →
          ∀ (v : AttrValue) (c : List ℕ),
            attrLookup f.attributes "ToBreak" = some v →
            colorsLookupAttr v = some c →
            (drawLoop features).1[i]? =
              some ⟨f.geometry, c, "Service area", pyFormat v ++ " minutes"⟩)
    ∧ (∀ (pre : List PolyFeature) (f : PolyFeature) (post : List PolyFeature),
        features = pre ++ f :: post →
        (∀ g ∈ pre, validToBreak g) →
        (∃ v : AttrValue, attrLookup f.attributes "ToBreak" = some v) →
        (∀ v : AttrValue, attrLookup f.attributes "ToBreak" = some v →
          colorsLookupAttr v = none) →
        drawLoop features = ((drawLoop pre).1, true)) := by
  constructor
  · induction features with
    | nil =>
        intro _
        refine ⟨rfl, rfl, ?_⟩
        intro i f hf
        simp at hf
    | cons f fs ih =>
        intro hv
        obtain ⟨q, c0, hl, hc⟩ := validToBreak_colors (hv f (List.mem_cons_self f fs))
        have hstep := drawLoop_cons_ok f fs (AttrValue.num q) c0 hl hc
        obtain ⟨ih1, ih2, ih3⟩ := ih (fun g hg => hv g (List.mem_cons_of_mem f hg))
        rw [hstep]
        refine ⟨ih1, by simpa using ih2, ?_⟩
        intro i g hg v c hgv hgc
        cases i with
        | zero =>
            simp only [List.getElem?_cons_zero, Option.some.injEq] at hg
            subst hg
            rw [hgv] at hl
            cases hl
            rw [hgc] at hc
            cases hc
            simp
        | succ k =>
            rw [List.getElem?_cons_succ] at hg ⊢
            exact ih3 k g hg v c hgv hgc
  · intro pre f post hfeat hpre hval hmiss
    subst hfeat
    exact drawLoop_err_after_valid_prefix pre f post hpre hval hmiss

/-- A polygon whose `ToBreak` is a mapped break value. -/
def sa_poly_good : PolyFeature :=
  ⟨[[(0, 0), (0, 1), (1, 0)]], [("ToBreak", AttrValue.num 10), ("FromBreak", AttrValue.num 5)]⟩

/-- A polygon whose `ToBreak` is 7, which no `colors` key maps. -/
def sa_poly_bad : PolyFeature :=
  ⟨[[(2, 2), (2, 3), (3, 2)]], [("ToBreak", AttrValue.num 7)]⟩

/-- Witness for C8: on a valid polygon the loop draws it with the mapped
color and popup; appending a polygon with `ToBreak = 7` raises the key
error after the valid polygon's draw call. -/
theorem drawLoop_total_on_breaks_witness :
    (drawLoop [sa_poly_good]).2 = false
    ∧ (drawLoop [sa_poly_good]).1.length = 1
    ∧ (drawLoop [sa_poly_good]).1[0]? =
        some ⟨sa_poly_good.geometry, [255, 255, 0, 90], "Service area",
              pyFormat (AttrValue.num 10) ++ " minutes"⟩
    ∧ drawLoop [sa_poly_good, sa_poly_bad] = ((drawLoop [sa_poly_good]).1, true) := by
  have hgood : ∀ f ∈ [sa_poly_good], validToBreak f := by
    intro f hf
    simp only [List.mem_singleton] at hf
    subst hf
    exact ⟨10, by decide, Or.inr (Or.inl rfl)⟩
  obtain ⟨h1, h2, h3⟩ := (drawLoop_total_on_breaks [sa_poly_good]).1 hgood
  refine ⟨h1, h2, ?_, ?_⟩
  · exact h3 0 sa_poly_good (by simp) (AttrValue.num 10) [255, 255, 0, 90]
      (by decide) (by decide)
  · refine (drawLoop_total_on_breaks [sa_poly_good, sa_poly_bad]).2
      [sa_poly_good] sa_poly_bad [] rfl hgood ⟨AttrValue.num 7, by decide⟩ ?_
    intro v hv
    have : v = AttrValue.num 7 := by
      rw [show attrLookup sa_poly_bad.attributes "ToBreak" = some (AttrValue.num 7)
            from by decide] at hv
      exact (Option.some.injEq _ _ ▸ hv).symm
    subst this
    decide

/-- The `isin` test is the existence of an allocation line with the same
`DemandOID`. -/
lemma demandOIDIsIn_iff (r : LocateAllocateResult) (d : DemandRow) :
    demandOIDIsIn r d = true ↔
      ∃ l ∈ r.output_allocation_lines, l.DemandOID = d.DemandOID := by
  rw [demandOIDIsIn]
  simp [List.contains_iff_exists_mem_beq, List.mem_map]

/-- C9: in `visualize_locate_allocate_results` the output demand points
are partitioned by membership of their `DemandOID` among the allocation
lines' `DemandOID` values — the allocated and unallocated row sets are
disjoint, their union is the output demand points — and the facilities
drawn as chosen are exactly the output facilities with
`FacilityType = 3` (under the six-column projection). -/
theorem visualize_demand_partition (r : LocateAllocateResult) :
    (∀ d : DemandRow, d ∈ demand_allocated_df r ↔
      d ∈ r.output_demand_points
      ∧ ∃ l ∈ r.output_allocation_lines, l.DemandOID = d.DemandOID)
    ∧ (∀ d : DemandRow, d ∈ demand_not_allocated_df r ↔
      d ∈ r.output_demand_points
      ∧ ¬∃ l ∈ r.output_allocation_lines, l.DemandOID = d.DemandOID)
    ∧ (∀ d : DemandRow,
        ¬(d ∈ demand_allocated_df r ∧ d ∈ demand_not_allocated_df r))
    ∧ (∀ d : DemandRow, d ∈ r.output_demand_points ↔
        (d ∈ demand_allocated_df r ∨ d ∈ demand_not_allocated_df r))
    ∧ facilities_chosen_df r =
        (r.output_facilities.filter (fun f => f.FacilityType == 3)).map facilityProj := by
  have hmem : ∀ d : DemandRow, d ∈ demand_allocated_df r ↔
      d ∈ r.output_demand_points ∧ demandOIDIsIn r d = true := by
    intro d
    rw [demand_allocated_df]
    exact List.mem_filter
  have hmemn : ∀ d : DemandRow, d ∈ demand_not_allocated_df r ↔
      d ∈ r.output_demand_points ∧ demandOIDIsIn r d = false := by
    intro d
    rw [demand_not_allocated_df]
    rw [List.mem_filter]
    simp
  refine ⟨?_, ?_, ?_, ?_, ?_⟩
  · intro d
    rw [hmem d, demandOIDIsIn_iff]
  · intro d
    rw [hmemn d, ← demandOIDIsIn_iff]
    simp
  · intro d
    rintro ⟨ha, hn⟩
    rw [hmem d] at ha
    rw [hmemn d] at hn
    rw [ha.2] at hn
    exact absurd hn.2 (by decide)
  · intro d
    constructor
    · intro hd
      cases hin : demandOIDIsIn r d with
      | true => exact Or.inl ((hmem d).mpr ⟨hd, hin⟩)
      | false => exact Or.inr ((hmemn d).mpr ⟨hd, hin⟩)
    · rintro (h | h)
      · exact ((hmem d).mp h).1
      · exact ((hmemn d).mp h).1
  · rw [facilities_chosen_df, facilities_df, List.filter_map]
    rfl

/-- A concrete solve result used to instantiate the partition theorem. -/
def la_result_example : LocateAllocateResult :=
  { solve_succeeded := true
    output_facilities :=
      [⟨"Visalia", 3, 1, 2, 120, ⟨1, 2⟩, []⟩, ⟨"Fresno", 1, 1, 0, 0, ⟨3, 4⟩, []⟩]
    output_demand_points := [⟨11, []⟩, ⟨12, []⟩]
    output_allocation_lines := [⟨11, []⟩] }

/-- Witness for C9: on a concrete result, the demand row with a matching
allocation line is allocated, the other is not, and the single
`FacilityType = 3` facility is the one chosen. -/
theorem visualize_demand_partition_witness :
    (⟨11, []⟩ : DemandRow) ∈ demand_allocated_df la_result_example
    ∧ (⟨12, []⟩ : DemandRow) ∈ demand_not_allocated_df la_result_example
    ∧ facilities_chosen_df la_result_example = [⟨"Visalia", 3, 1, 2, 120, ⟨1, 2⟩⟩] := by
  refine ⟨?_, ?_, ?_⟩
  · exact ((visualize_demand_partition la_result_example).1 ⟨11, []⟩).mpr
      ⟨by decide, ⟨11, []⟩, by decide, rfl⟩
  · exact ((visualize_demand_partition la_result_example).2.1 ⟨12, []⟩).mpr
      ⟨by decide, by
        rintro ⟨l, hl, hoid⟩
        have : l = ⟨11, []⟩ := by
          have := hl
          simp only [la_result_example, List.mem_singleton] at this
          exact this
        subst this
        exact absurd hoid (by decide)⟩
  · rw [(visualize_demand_partition la_result_example).2.2.2.2]
    decide

/-- Column lookup on a cons cell. -/
lemma getCol_cons (c : String × List AttrValue) (cs : DataFrame) (name : String) :
    getCol (c :: cs) name = if c.1 == name then some c.2 else getCol cs name := by
  cases hc : (c.1 == name) with
  | true => simp [getCol, List.find?, hc]
  | false => simp [getCol, List.find?, hc]

/-- Dropping a column removes it. -/
lemma getCol_filter_self (df : DataFrame) (n : String) :
    getCol (df.filter (fun c => c.1 != n)) n = none := by
  induction df with
  | nil => rfl
  | cons c cs ih =>
      by_cases hc : c.1 = n
      · rw [List.filter_cons_of_neg (by simp [hc])]
        exact ih
      · rw [List.filter_cons_of_pos (by simp [hc]), getCol_cons]
        simp only [show (c.1 == n) = false from by simp [hc], if_false]
        exact ih

/-- Dropping a column leaves every other column's lookup unchanged. -/
lemma getCol_filter_other (df : DataFrame) (n name : String) (h : name ≠ n) :
    getCol (df.filter (fun c => c.1 != n)) name = getCol df name := by
  induction df with
  | nil => rfl
  | cons c cs ih =>
      by_cases hc : c.1 = n
      · rw [List.filter_cons_of_neg (by simp [hc]), ih, getCol_cons]
        have : (c.1 == name) = false := by
          simp only [beq_eq_false_iff_ne, ne_eq]
          rw [hc]
          exact fun hh => h hh.symm
        rw [this]
        simp
      · rw [List.filter_cons_of_pos (by simp [hc]), getCol_cons, getCol_cons, ih]

/-- Overwriting column `w` makes its lookup the new values (overwrite
branch of `setCol`). -/
lemma getCol_map_overwrite (df : DataFrame) (w : String) (vals : List AttrValue)
    (h : df.any (fun c => c.1 == w) = true) :
    getCol (df.map (fun c => if c.1 == w then (w, vals) else c)) w = some vals := by
  induction df with
  | nil => simp at h
  | cons c cs ih =>
      rw [List.map_cons, getCol_cons]
      by_cases hc : (c.1 == w) = true
      · simp [hc]
      · have hc' : (c.1 == w) = false := by simpa using hc
        have h2 : cs.any (fun e => e.1 == w) = true := by
          simpa [List.any_cons, hc'] using h
        have hrep : (if c.1 == w then (w, vals) else c) = c := by rw [hc']; simp
        rw [hrep, hc']
        simpa using ih h2

/-- Overwriting column `w` leaves other columns' lookups unchanged. -/
lemma getCol_map_overwrite_other (df : DataFrame) (w : String) (vals : List AttrValue)
    (name : String) (h : name ≠ w) :
    getCol (df.map (fun c => if c.1 == w then (w, vals) else c)) name = getCol df name := by
  induction df with
  | nil => rfl
  | cons c cs ih =>
      rw [List.map_cons]
      by_cases hc : (c.1 == w) = true
      · have hcn : (c.1 == name) = false := by
          simp only [beq_eq_false_iff_ne, ne_eq]
          rw [show c.1 = w from by simpa using hc]
          exact fun hh => h hh.symm
        have hwn : (w == name) = false := by
          simp only [beq_eq_false_iff_ne, ne_eq]
          exact fun hh => h hh.symm
        have hrep : (if c.1 == w then (w, vals) else c) = (w, vals) := by
          rw [hc]
          simp
        rw [hrep, getCol_cons, getCol_cons, hwn, hcn, if_neg (by simp),
            if_neg (by simp)]
        exact ih
      · have hc' : (c.1 == w) = false := by simpa using hc
        have hrep : (if c.1 == w then (w, vals) else c) = c := by
          rw [hc']
          simp
        rw [hrep, getCol_cons, getCol_cons, ih]

/-- Appending a fresh column makes its lookup the new values (append
branch of `setCol`). -/
lemma getCol_append_single (df : DataFrame) (w : String) (vals : List AttrValue)
    (h : df.any (fun c => c.1 == w) = false) :
    getCol (df ++ [(w, vals)]) w = some vals := by
  induction df with
  | nil => simp [getCol_cons]
  | cons c cs ih =>
      have h1 : (c.1 == w) = false := by
        simp [List.any_cons] at h
        simpa using h.1
      have h2 : cs.any (fun e => e.1 == w) = false := by
        simp [List.any_cons] at h
        simpa using h.2
      rw [List.cons_append, getCol_cons, h1, if_neg (by simp)]
      exact ih h2

/-- Appending a fresh column leaves other columns' lookups unchanged. -/
lemma getCol_append_single_other (df : DataFrame) (w : String) (vals : List AttrValue)
    (name : String) (h : name ≠ w) :
    getCol (df ++ [(w, vals)]) name = getCol df name := by
  induction df with
  | nil =>
      have hwn : (w == name) = false := by
        simp only [beq_eq_false_iff_ne, ne_eq]
        exact fun hh => h hh.symm
      simp [getCol_cons, hwn, getCol]
  | cons c cs ih =>
      rw [List.cons_append, getCol_cons, getCol_cons, ih]

/-- `setCol` makes the assigned column's lookup the new values. -/
lemma getCol_setCol_self (df : DataFrame) (w : String) (vals : List AttrValue) :
    getCol (setCol df w vals) w = some vals := by
  rw [setCol]
  cases hany : df.any (fun c => c.1 == w) with
  | true =>
      rw [if_pos rfl]
      exact getCol_map_overwrite df w vals hany
  | false =>
      rw [if_neg (by simp)]
      exact getCol_append_single df w vals hany

/-- `setCol` leaves other columns' lookups unchanged. -/
lemma getCol_setCol_other (df : DataFrame) (w : String) (vals : List AttrValue)
    (name : String) (h : name ≠ w) :
    getCol (setCol df w vals) name = getCol df name := by
  rw [setCol]
  cases hany : df.any (fun c => c.1 == w) with
  | true =>
      rw [if_pos rfl]
      exact getCol_map_overwrite_other df w vals name h
  | false =>
      rw [if_neg (by simp)]
      exact getCol_append_single_other df w vals name h

/-- A successful lookup exhibits the column. -/
lemma any_of_getCol_some (df : DataFrame) (n : String) (v : List AttrValue)
    (h : getCol df n = some v) : df.any (fun c => c.1 == n) = true := by
  induction df with
  | nil => exact absurd h (by rw [getCol]; simp)
  | cons c cs ih =>
      rw [getCol_cons] at h
      by_cases hc : (c.1 == n) = true
      · simp [List.any_cons, hc]
      · have hc' : (c.1 == n) = false := by simpa using hc
        rw [hc', if_neg (by simp)] at h
        simp [List.any_cons, ih h]

/-- C10: the demand-point weighting step only renames a column — the
weighted table has a `weight` column holding exactly the original
`num_patients` values row by row, no `num_patients` column, and every
other column (the geometry `SHAPE` column included) unchanged. -/
theorem patient_weighting_frame (sdf : DataFrame) (np : List AttrValue)
    (h : getCol sdf "num_patients" = some np) :
    ∃ fs : TableFeatureSet,
      patient_locations_weighted sdf = some fs
      ∧ getCol fs.table "weight" = some np
      ∧ getCol fs.table "num_patients" = none
      ∧ ∀ name : String, name ≠ "weight" → name ≠ "num_patients" →
          getCol fs.table name = getCol sdf name := by
  have hnp_ne : ("num_patients" : String) ≠ "weight" := by decide
  have hset_np : getCol (setCol sdf "weight" np) "num_patients" = some np := by
    rw [getCol_setCol_other sdf "weight" np "num_patients" hnp_ne, h]
  have hany : (setCol sdf "weight" np).any (fun c => c.1 == "num_patients") = true :=
    any_of_getCol_some _ _ _ hset_np
  have hdrop : dropCol (setCol sdf "weight" np) "num_patients" =
      some ((setCol sdf "weight" np).filter (fun c => c.1 != "num_patients")) := by
    rw [dropCol, if_pos hany]
  refine ⟨⟨(setCol sdf "weight" np).filter (fun c => c.1 != "num_patients")⟩, ?_, ?_, ?_, ?_⟩
  · rw [patient_locations_weighted, h]
    simp only [Option.bind_eq_bind, Option.some_bind]
    rw [hdrop]
    rfl
  · rw [getCol_filter_other _ _ _ (by decide), getCol_setCol_self]
  · exact getCol_filter_self _ _
  · intro name hw hnp
    rw [getCol_filter_other _ _ _ hnp, getCol_setCol_other _ _ _ _ hw]

/-- A concrete patient-locations table used to instantiate the frame
theorem. -/
def patient_sdf_example : DataFrame :=
  [("zip", [AttrValue.str "93277", AttrValue.str "93720"]),
   ("num_patients", [AttrValue.num 3, AttrValue.num 5]),
   ("SHAPE", [AttrValue.pt 1 2, AttrValue.pt 3 4])]

/-- Witness for C10: the theorem applied to a concrete table. -/
theorem patient_weighting_frame_witness :
    ∃ fs : TableFeatureSet,
      patient_locations_weighted patient_sdf_example = some fs
      ∧ getCol fs.table "weight" = some [AttrValue.num 3, AttrValue.num 5]
      ∧ getCol fs.table "num_patients" = none
      ∧ ∀ name : String, name ≠ "weight" → name ≠ "num_patients" →
          getCol fs.table name = getCol patient_sdf_example name :=
  patient_weighting_frame patient_sdf_example [AttrValue.num 3, AttrValue.num 5]
    (by decide)

/-- The solve number of a solve step. -/
def NotebookStep.solveId : NotebookStep → Option Nat
  | NotebookStep.remoteSolve i _ => some i
  | _ => none

/-- The solve number a status inspection refers to. -/
def NotebookStep.statusSolveId : NotebookStep → Option Nat
  | NotebookStep.inspectStatus i _ => some i
  | _ => none

/-- The solve number a reshape step refers to. -/
def NotebookStep.reshapeId : NotebookStep → Option Nat
  | NotebookStep.reshapeResult i => some i
  | _ => none

/-- The solve number a result-drawing step refers to. -/
def NotebookStep.drawResultId : NotebookStep → Option Nat
  | NotebookStep.drawResult i => some i
  | _ => none

/-- The input feature collections a solve step is passed. -/
def NotebookStep.solveInputs : NotebookStep → List String
  | NotebookStep.remoteSolve _ ins => ins
  | _ => []

/-- Is a step the construction of an input feature collection? -/
def NotebookStep.isBuildInput : NotebookStep → Bool
  | NotebookStep.buildInput _ => true
  | _ => false

/-- The connect / build-input / solve / reshape / draw order of one
notebook trace: the connection precedes every input construction and
every solve, every input collection a solve is passed is built before
the solve, every reshape of a solve's response follows that solve, and
every drawing of a solve's reshaped output follows such a reshape. -/
abbrev pipelineOrdered (L : List NotebookStep) : Prop :=
  (∀ i : Fin L.length, (L.get i).isSolve = true →
      (∃ c : Fin L.length, (c : ℕ) < (i : ℕ) ∧ L.get c = NotebookStep.connect)
      ∧ ∀ name ∈ (L.get i).solveInputs,
          ∃ b : Fin L.length, (b : ℕ) < (i : ℕ)
            ∧ L.get b = NotebookStep.buildInput name)
  ∧ (∀ i : Fin L.length, (L.get i).isBuildInput = true →
      ∃ c : Fin L.length, (c : ℕ) < (i : ℕ) ∧ L.get c = NotebookStep.connect)
  ∧ (∀ i : Fin L.length, (L.get i).reshapeId ≠ none →
      ∃ s : Fin L.length, (s : ℕ) < (i : ℕ)
        ∧ (L.get s).solveId = (L.get i).reshapeId)
  ∧ (∀ i : Fin L.length, (L.get i).drawResultId ≠ none →
      ∃ r : Fin L.length, (r : ℕ) < (i : ℕ)
        ∧ (L.get r).reshapeId = (L.get i).drawResultId)

/-- C1: no retry, fallback, exception handler, or branch on a solve
result exists in either notebook; the only status signal ever inspected
is `solve_succeeded`, read once after each of the two
location-allocation solves and never in the service-area notebook — so
any other failure has no handler to stop it. -/
theorem only_error_signal_is_solve_succeeded :
    (∀ s ∈ serviceAreaTrace, s.isRecoveryConstruct = false)
    ∧ (∀ s ∈ locationAllocationTrace, s.isRecoveryConstruct = false)
    ∧ locationAllocationTrace.filter NotebookStep.isStatusRead =
        [NotebookStep.inspectStatus 1 "solve_succeeded",
         NotebookStep.inspectStatus 2 "solve_succeeded"]
    ∧ serviceAreaTrace.filter NotebookStep.isStatusRead = []
    ∧ (∀ j : Fin locationAllocationTrace.length,
        (locationAllocationTrace.get j).isStatusRead = true →
        ∃ i : Fin locationAllocationTrace.length, (i : ℕ) < (j : ℕ)
          ∧ (locationAllocationTrace.get i).solveId
              = (locationAllocationTrace.get j).statusSolveId) := by
  refine ⟨by decide, by decide, by decide, by decide, by decide⟩

/-- Witness for C1: the first status read of the location-allocation
notebook (trace position 13) has a matching earlier solve. -/
theorem only_error_signal_is_solve_succeeded_witness :
    ∃ i : Fin locationAllocationTrace.length, (i : ℕ) < 13
      ∧ (locationAllocationTrace.get i).solveId
          = (locationAllocationTrace.get ⟨13, by decide⟩).statusSolveId :=
  only_error_signal_is_solve_succeeded.2.2.2.2 ⟨13, by decide⟩ (by decide)

/-- C7: each notebook is a linear connect / build-inputs / solve /
reshape / draw pipeline; the service-area notebook issues exactly one
solve and the location-allocation notebook exactly two, and no solve is
issued before its input feature collections are constructed. -/
theorem notebook_pipeline_order :
    serviceAreaTrace.countP NotebookStep.isSolve = 1
    ∧ locationAllocationTrace.countP NotebookStep.isSolve = 2
    ∧ pipelineOrdered serviceAreaTrace
    ∧ pipelineOrdered locationAllocationTrace := by
  refine ⟨by decide, by decide, by decide, by decide⟩

/-- Witness for C7: the single service-area solve (trace position 11)
has an earlier construction of its input collection
`fire_station_fset`. -/
theorem notebook_pipeline_order_witness :
    ∃ b : Fin serviceAreaTrace.length, (b : ℕ) < 11
      ∧ serviceAreaTrace.get b = NotebookStep.buildInput "fire_station_fset" :=
  (notebook_pipeline_order.2.2.1.1 ⟨11, by decide⟩ (by decide)).2
    "fire_station_fset" (by decide)
